import Mathlib

/-!
Verification of the `QWinEventNotifier` subsystem
(`src/corelib/kernel/qwineventnotifier.cpp`).

The notifier's own code is embedded directly: each public operation is a
function from the private state (`QWinEventNotifierPrivate`) to the new
state together with the list of calls it issues into the event dispatcher
(`registerEventNotifier` / `unregisterEventNotifier`).  The dispatcher
itself (`QEventDispatcherWin32`) is an external collaborator whose sources
are not part of this repository slice; the two places where its behaviour
is needed (notification dispatch and registration capacity) are modelled
from the specification and marked as such.
-/

/-- A Windows HANDLE value, modelled as a natural number; `0` is the null
handle (the default `handleToEvent(0)` initialisation in the source). -/
abbrev HANDLE := Nat

/-- The private state of a notifier, from `QWinEventNotifierPrivate`:
`handleToEvent` and `enabled`.  The default constructor initialises them to
`(0, false)`. -/
structure QWinEventNotifierPrivate where
  handleToEvent : HANDLE
  enabled : Bool
deriving DecidableEq, Repr

/-- A call issued by the notifier into its thread's event dispatcher.
The source passes `this`; we record the notifier's stored handle at the
moment of the call, which is what the dispatcher waits on. -/
inductive DispatcherCall where
  | registerEventNotifier (handle : HANDLE)
  | unregisterEventNotifier (handle : HANDLE)
deriving DecidableEq, Repr

/-- Number of `registerEventNotifier` calls in a call list. -/
def registerCount (cs : List DispatcherCall) : Nat :=
  cs.countP fun c =>
    match c with
    | DispatcherCall.registerEventNotifier _ => true
    | DispatcherCall.unregisterEventNotifier _ => false

/-- Number of `unregisterEventNotifier` calls in a call list. -/
def unregisterCount (cs : List DispatcherCall) : Nat :=
  cs.countP fun c =>
    match c with
    | DispatcherCall.registerEventNotifier _ => false
    | DispatcherCall.unregisterEventNotifier _ => true

namespace QWinEventNotifier

/-- `QWinEventNotifier::isEnabled`. -/
def isEnabled (d : QWinEventNotifierPrivate) : Bool := d.enabled

/-- `QWinEventNotifier::handle`. -/
def handle (d : QWinEventNotifierPrivate) : HANDLE := d.handleToEvent

/-- `QWinEventNotifier::setEnabled(bool enable)`.
`dispatcherPresent` stands for `d->threadData->eventDispatcher` being
non-null after the `qobject_cast`.  Mirrors the source exactly: return
unchanged if `d->enabled == enable`; otherwise set the flag, then, only if
a dispatcher is present, issue the register/unregister call. -/
def setEnabled (d : QWinEventNotifierPrivate) (dispatcherPresent : Bool)
    (enable : Bool) : QWinEventNotifierPrivate × List DispatcherCall :=
  if d.enabled = enable then (d, [])
  else
    let d' : QWinEventNotifierPrivate := { d with enabled := enable }
    if dispatcherPresent then
      if enable then (d', [DispatcherCall.registerEventNotifier d'.handleToEvent])
      else (d', [DispatcherCall.unregisterEventNotifier d'.handleToEvent])
    else (d', [])

/-- `QWinEventNotifier::setHandle(HANDLE hEvent)`: `setEnabled(false)` first,
then store the new handle. -/
def setHandle (d : QWinEventNotifierPrivate) (dispatcherPresent : Bool)
    (hEvent : HANDLE) : QWinEventNotifierPrivate × List DispatcherCall :=
  let r := setEnabled d dispatcherPresent false
  ({ r.1 with handleToEvent := hEvent }, r.2)

/-- `QWinEventNotifier::QWinEventNotifier(QObject *parent)`: the private is
initialised to `(0, false)` and the constructor body is empty, so no
dispatcher call is made. -/
def constructDefault : QWinEventNotifierPrivate × List DispatcherCall :=
  (⟨0, false⟩, [])

/-- Result of the handle-taking constructor, which can fail its
`Q_ASSERT_X` precondition. -/
inductive CtorResult where
  | ok (d : QWinEventNotifierPrivate) (calls : List DispatcherCall)
  | assertFailure
deriving DecidableEq, Repr

/-- `QWinEventNotifier::QWinEventNotifier(HANDLE hEvent, QObject *parent)`:
the private starts as `(hEvent, false)`; if the calling thread has no
`QEventDispatcherWin32` the `Q_ASSERT_X` fires (modelled as
`assertFailure`); otherwise `registerEventNotifier(this)` is called and
`d->enabled` is set to `true`. -/
def constructWithHandle (hEvent : HANDLE) (dispatcherPresent : Bool) :
    CtorResult :=
  if dispatcherPresent then
    CtorResult.ok ⟨hEvent, true⟩ [DispatcherCall.registerEventNotifier hEvent]
  else
    CtorResult.assertFailure

/-- `QWinEventNotifier::~QWinEventNotifier()`: `setEnabled(false)`. -/
def destruct (d : QWinEventNotifierPrivate) (dispatcherPresent : Bool) :
    QWinEventNotifierPrivate × List DispatcherCall :=
  setEnabled d dispatcherPresent false

/-- The two event types `QWinEventNotifier::event` inspects, plus a catch-all
for every other `QEvent::Type`. -/
inductive QEventType where
  | threadChange
  | winEventAct
  | other
deriving DecidableEq, Repr

/-- Everything observable about one run of `QWinEventNotifier::event`:
the private state afterwards, the synchronous dispatcher calls made, the
`Qt::QueuedConnection` invocations of `setEnabled` posted via
`QMetaObject::invokeMethod` (deferred: they do not run inside `event`), the
`activated(HANDLE)` emissions, and the boolean return value. -/
structure EventOutcome where
  state : QWinEventNotifierPrivate
  calls : List DispatcherCall
  queuedInvocations : List Bool
  activatedEmissions : List HANDLE
  returnValue : Bool
deriving DecidableEq, Repr

/-- `QWinEventNotifier::event(QEvent *e)`.  On `ThreadChange` while enabled:
post a queued `setEnabled(true)` invocation and synchronously
`setEnabled(false)`.  Then (after `QObject::event(e)`, out of scope here) on
`WinEventAct`: `emit activated(d->handleToEvent)` and return `true`; any
other type returns `false`. -/
def event (d : QWinEventNotifierPrivate) (dispatcherPresent : Bool)
    (e : QEventType) : EventOutcome :=
  let step :
      QWinEventNotifierPrivate × List Bool × List DispatcherCall :=
    if e = QEventType.threadChange then
      if d.enabled then
        let r := setEnabled d dispatcherPresent false
        (r.1, [true], r.2)
      else (d, [], [])
    else (d, [], [])
  if e = QEventType.winEventAct then
    ⟨step.1, step.2.2, step.2.1, [step.1.handleToEvent], true⟩
  else
    ⟨step.1, step.2.2, step.2.1, [], false⟩

/-- Run a list of pending `Qt::QueuedConnection` invocations of
`setEnabled` once the notifier is executing in its (new) thread context,
accumulating the dispatcher calls they make there. -/
def runQueuedInvocations (d : QWinEventNotifierPrivate)
    (dispatcherPresent : Bool) (qs : List Bool) :
    QWinEventNotifierPrivate × List DispatcherCall :=
  qs.foldl
    (fun acc b =>
      let r := setEnabled acc.1 dispatcherPresent b
      (r.1, acc.2 ++ r.2))
    (d, [])

end QWinEventNotifier

/-- Modelled from the spec: the dispatcher-side notification dispatch
(`QEventDispatcherWin32::activateEventNotifiers`, not among this
repository slice's sources).  Spec 4.3: given a fired handle, "look it up
in the Registry; if found and still enabled, deliver exactly one
notification to the owning notifier synchronously on the loop thread,
passing the fired handle as payload"; a missing or stale entry is silently
dropped.  The registry is the dispatcher's list of registered notifiers,
looked up by their stored handle; delivery sends a `WinEventAct` event to
the notifier's `event` handler. -/
def dispatchFiredHandle (registry : List QWinEventNotifierPrivate)
    (dispatcherPresent : Bool) (fired : HANDLE) :
    List QWinEventNotifier.EventOutcome :=
  match registry.find? (fun d => d.handleToEvent == fired) with
  | none => []
  | some d =>
      if d.enabled then
        [QWinEventNotifier.event d dispatcherPresent
          QWinEventNotifier.QEventType.winEventAct]
      else []

/-- The classic Windows ceiling on the number of objects one
`WaitForMultipleObjects` call can cover. -/
def MAXIMUM_WAIT_OBJECTS : Nat := 64

/-- Outcome of a dispatcher-side registration attempt. -/
inductive RegisterResult where
  | ok (registry : List HANDLE)
  | capacityError
deriving DecidableEq, Repr

/-- Modelled from the spec: the dispatcher-side registration entry point
(`QEventDispatcherWin32::registerEventNotifier`, not among this repository
slice's sources).  Spec 4.2/7: the wait set is all enabled handles plus
the loop's wake primitive, one wait call covers at most
`MAXIMUM_WAIT_OBJECTS` objects with one slot reserved for the wake
primitive, and a registration that would exceed that ceiling "surfaces a
reportable capacity error rather than silently dropping a registration"; a
handle already present is not duplicated. -/
def registryRegister (registry : List HANDLE) (h : HANDLE) : RegisterResult :=
  if h ∈ registry then RegisterResult.ok registry
  else if registry.length + 1 ≤ MAXIMUM_WAIT_OBJECTS - 1 then
    RegisterResult.ok (registry ++ [h])
  else RegisterResult.capacityError

/-- One public operation on a live notifier, for whole-trace statements. -/
inductive Op where
  | setHandleOp (h : HANDLE)
  | setEnabledOp (b : Bool)
  | threadChangeOp
  | destructOp
deriving DecidableEq, Repr

/-- A notifier together with whether it is currently registered with an
event dispatcher (registration state evolves by the calls the notifier
issues). -/
structure Sys where
  d : QWinEventNotifierPrivate
  registered : Bool
deriving DecidableEq, Repr

/-- Fold a list of dispatcher calls over the registration state: a
register call makes the notifier registered, an unregister call removes
it. -/
def applyCalls (reg : Bool) (cs : List DispatcherCall) : Bool :=
  cs.foldl
    (fun _ c =>
      match c with
      | DispatcherCall.registerEventNotifier _ => true
      | DispatcherCall.unregisterEventNotifier _ => false)
    reg

/-- Execute one public operation with a dispatcher present, tracking the
registration state.  `threadChangeOp` is the whole affinity transfer: the
`ThreadChange` event is processed on the old loop, then the queued
invocations it posted run in the new thread context. -/
def stepOp (s : Sys) : Op → Sys
  | Op.setHandleOp h =>
      ⟨(QWinEventNotifier.setHandle s.d true h).1,
        applyCalls s.registered (QWinEventNotifier.setHandle s.d true h).2⟩
  | Op.setEnabledOp b =>
      ⟨(QWinEventNotifier.setEnabled s.d true b).1,
        applyCalls s.registered (QWinEventNotifier.setEnabled s.d true b).2⟩
  | Op.threadChangeOp =>
      let ev := QWinEventNotifier.event s.d true
        QWinEventNotifier.QEventType.threadChange
      let r := QWinEventNotifier.runQueuedInvocations ev.state true
        ev.queuedInvocations
      ⟨r.1, applyCalls (applyCalls s.registered ev.calls) r.2⟩
  | Op.destructOp =>
      ⟨(QWinEventNotifier.destruct s.d true).1,
        applyCalls s.registered (QWinEventNotifier.destruct s.d true).2⟩

/-- Run a sequence of public operations. -/
def runOps (s : Sys) (ops : List Op) : Sys := ops.foldl stepOp s

example : QWinEventNotifier.setEnabled ⟨5, false⟩ true true
    = (⟨5, true⟩, [DispatcherCall.registerEventNotifier 5]) := by decide

example : QWinEventNotifier.setEnabled ⟨5, false⟩ false true
    = (⟨5, true⟩, []) := by decide

example : QWinEventNotifier.event ⟨5, true⟩ true QWinEventNotifier.QEventType.threadChange
    = ⟨⟨5, false⟩, [DispatcherCall.unregisterEventNotifier 5], [true], [], false⟩ := by
  decide

example : runOps ⟨⟨0, false⟩, false⟩ [Op.setEnabledOp true]
    = ⟨⟨0, true⟩, true⟩ := by decide

example : dispatchFiredHandle [⟨3, true⟩] true 3
    = [⟨⟨3, true⟩, [], [], [3], true⟩] := by decide

/-- C2: after `setEnabled(b)` returns, `isEnabled()` returns `b`; if
`isEnabled()` already equals `b`, the call is a complete no-op (state
unchanged, no dispatcher call); and from a disabled state with a
dispatcher present, calling `setEnabled(true)` twice in a row issues
exactly one `registerEventNotifier` call, not two. -/
theorem C2_setEnabled_idempotent :
    (∀ (d : QWinEventNotifierPrivate) (disp b : Bool),
      QWinEventNotifier.isEnabled (QWinEventNotifier.setEnabled d disp b).1 = b)
  ∧ (∀ (d : QWinEventNotifierPrivate) (disp b : Bool),
      QWinEventNotifier.isEnabled d = b →
      QWinEventNotifier.setEnabled d disp b = (d, []))
  ∧ (∀ d : QWinEventNotifierPrivate,
      QWinEventNotifier.isEnabled d = false →
      registerCount ((QWinEventNotifier.setEnabled d true true).2
        ++ (QWinEventNotifier.setEnabled
              (QWinEventNotifier.setEnabled d true true).1 true true).2) = 1) := by
  refine ⟨?_, ?_, ?_⟩
  · intro ⟨h, e⟩ disp b
    cases e <;> cases b <;> cases disp <;>
      simp [QWinEventNotifier.setEnabled, QWinEventNotifier.isEnabled]
  · intro ⟨h, e⟩ disp b hb
    simp [QWinEventNotifier.isEnabled] at hb
    subst hb
    simp [QWinEventNotifier.setEnabled]
  · intro ⟨h, e⟩ he
    simp [QWinEventNotifier.isEnabled] at he
    subst he
    simp [QWinEventNotifier.setEnabled, registerCount]

/-- Witness for C2 at a concrete notifier. -/
theorem C2_setEnabled_idempotent_w :
    QWinEventNotifier.isEnabled (QWinEventNotifier.setEnabled ⟨5, false⟩ true true).1 = true
  ∧ QWinEventNotifier.setEnabled ⟨5, true⟩ true true = (⟨5, true⟩, [])
  ∧ registerCount ((QWinEventNotifier.setEnabled ⟨5, false⟩ true true).2
      ++ (QWinEventNotifier.setEnabled
            (QWinEventNotifier.setEnabled ⟨5, false⟩ true true).1 true true).2) = 1 :=
  ⟨C2_setEnabled_idempotent.1 ⟨5, false⟩ true true,
   C2_setEnabled_idempotent.2.1 ⟨5, true⟩ true true rfl,
   C2_setEnabled_idempotent.2.2 ⟨5, false⟩ rfl⟩

/-- C6: a state-changing `setEnabled` call while the dispatcher is already
gone (application shutting down) makes no dispatcher call, raises no error
and returns normally: the register/unregister attempt is a silent no-op. -/
theorem C6_shutdown_silent_noop (d : QWinEventNotifierPrivate) (b : Bool)
    (hchange : QWinEventNotifier.isEnabled d ≠ b) :
    (QWinEventNotifier.setEnabled d false b).2 = []
  ∧ (QWinEventNotifier.setEnabled d false b).1 = { d with enabled := b } := by
  obtain ⟨h, e⟩ := d
  simp [QWinEventNotifier.isEnabled] at hchange
  cases e <;> cases b <;> simp_all [QWinEventNotifier.setEnabled]

/-- Witness for C6 at a concrete notifier. -/
theorem C6_shutdown_silent_noop_w :
    QWinEventNotifier.isEnabled (⟨5, true⟩ : QWinEventNotifierPrivate) ≠ false
  ∧ ((QWinEventNotifier.setEnabled ⟨5, true⟩ false false).2 = []
      ∧ (QWinEventNotifier.setEnabled ⟨5, true⟩ false false).1 = ⟨5, false⟩) :=
  ⟨by decide, C6_shutdown_silent_noop ⟨5, true⟩ false (by decide)⟩

/-- C9: a state-changing `setEnabled(b)` with no dispatcher on the calling
thread still updates the enabled flag (the flag is written before the
dispatcher check), issues no dispatcher call, and leaves any registration
state untouched — so `isEnabled()` can return `true` while the notifier is
not registered with any dispatcher. -/
theorem C9_flag_updated_without_dispatcher (d : QWinEventNotifierPrivate)
    (b : Bool) (hchange : QWinEventNotifier.isEnabled d ≠ b) :
    QWinEventNotifier.isEnabled (QWinEventNotifier.setEnabled d false b).1 = b
  ∧ (QWinEventNotifier.setEnabled d false b).2 = []
  ∧ (∀ reg : Bool, applyCalls reg (QWinEventNotifier.setEnabled d false b).2 = reg) := by
  obtain ⟨h, e⟩ := d
  simp [QWinEventNotifier.isEnabled] at hchange
  cases e <;> cases b <;>
    simp_all [QWinEventNotifier.setEnabled, QWinEventNotifier.isEnabled, applyCalls]

/-- Witness for C9 at a concrete notifier: enabled becomes true while the
registration state stays false. -/
theorem C9_flag_updated_without_dispatcher_w :
    QWinEventNotifier.isEnabled (⟨5, false⟩ : QWinEventNotifierPrivate) ≠ true
  ∧ (QWinEventNotifier.isEnabled (QWinEventNotifier.setEnabled ⟨5, false⟩ false true).1 = true
      ∧ (QWinEventNotifier.setEnabled ⟨5, false⟩ false true).2 = []
      ∧ (∀ reg : Bool,
          applyCalls reg (QWinEventNotifier.setEnabled ⟨5, false⟩ false true).2 = reg)) :=
  ⟨by decide, C9_flag_updated_without_dispatcher ⟨5, false⟩ true (by decide)⟩

/-- C7: `setHandle(h)` forces the disabled state first (removing the
registry entry, carrying the old handle, if the notifier was enabled and a
dispatcher is present), only then stores `h`, and never issues a
`registerEventNotifier` call. -/
theorem C7_setHandle_disables_then_replaces (d : QWinEventNotifierPrivate)
    (disp : Bool) (h : HANDLE) :
    QWinEventNotifier.isEnabled (QWinEventNotifier.setHandle d disp h).1 = false
  ∧ QWinEventNotifier.handle (QWinEventNotifier.setHandle d disp h).1 = h
  ∧ registerCount (QWinEventNotifier.setHandle d disp h).2 = 0
  ∧ (QWinEventNotifier.isEnabled d = true → disp = true →
      (QWinEventNotifier.setHandle d disp h).2
        = [DispatcherCall.unregisterEventNotifier d.handleToEvent]) := by
  obtain ⟨h0, e⟩ := d
  cases e <;> cases disp <;>
    simp [QWinEventNotifier.setHandle, QWinEventNotifier.setEnabled,
      QWinEventNotifier.isEnabled, QWinEventNotifier.handle, registerCount]

/-- Witness for C7 at a concrete enabled notifier. -/
theorem C7_setHandle_disables_then_replaces_w :
    QWinEventNotifier.isEnabled (QWinEventNotifier.setHandle ⟨5, true⟩ true 9).1 = false
  ∧ QWinEventNotifier.handle (QWinEventNotifier.setHandle ⟨5, true⟩ true 9).1 = 9
  ∧ registerCount (QWinEventNotifier.setHandle ⟨5, true⟩ true 9).2 = 0
  ∧ (QWinEventNotifier.setHandle ⟨5, true⟩ true 9).2
      = [DispatcherCall.unregisterEventNotifier 5] :=
  ⟨(C7_setHandle_disables_then_replaces ⟨5, true⟩ true 9).1,
   (C7_setHandle_disables_then_replaces ⟨5, true⟩ true 9).2.1,
   (C7_setHandle_disables_then_replaces ⟨5, true⟩ true 9).2.2.1,
   (C7_setHandle_disables_then_replaces ⟨5, true⟩ true 9).2.2.2 rfl rfl⟩

/-- C10: a notifier constructed with only a parent starts with the null
handle, disabled, and its construction makes no dispatcher call. -/
theorem C10_default_construction :
    QWinEventNotifier.handle QWinEventNotifier.constructDefault.1 = 0
  ∧ QWinEventNotifier.isEnabled QWinEventNotifier.constructDefault.1 = false
  ∧ QWinEventNotifier.constructDefault.2 = [] := by decide

/-- C1: processing a `ThreadChange` event while enabled (with the old
thread's dispatcher present) synchronously disables the notifier — the only
synchronous dispatcher call is the unregistration from the old loop, no
register call happens synchronously — and posts exactly one queued
`setEnabled(true)` invocation; running that queued invocation later in the
new thread context re-enables the notifier and registers it there.  If the
notifier is disabled when `ThreadChange` arrives, nothing happens at all. -/
theorem C1_threadChange_transfer (d : QWinEventNotifierPrivate) :
    (QWinEventNotifier.isEnabled d = true →
      QWinEventNotifier.event d true QWinEventNotifier.QEventType.threadChange
        = ⟨{ d with enabled := false },
            [DispatcherCall.unregisterEventNotifier d.handleToEvent],
            [true], [], false⟩
      ∧ QWinEventNotifier.runQueuedInvocations { d with enabled := false } true [true]
          = ({ d with enabled := true },
             [DispatcherCall.registerEventNotifier d.handleToEvent]))
  ∧ (QWinEventNotifier.isEnabled d = false →
      QWinEventNotifier.event d true QWinEventNotifier.QEventType.threadChange
        = ⟨d, [], [], [], false⟩) := by
  obtain ⟨h, e⟩ := d
  cases e <;>
    simp [QWinEventNotifier.event, QWinEventNotifier.setEnabled,
      QWinEventNotifier.isEnabled, QWinEventNotifier.runQueuedInvocations]

/-- Witness for C1: the enabled case at handle 7, and the disabled case. -/
theorem C1_threadChange_transfer_w :
    (QWinEventNotifier.event ⟨7, true⟩ true QWinEventNotifier.QEventType.threadChange
        = ⟨⟨7, false⟩, [DispatcherCall.unregisterEventNotifier 7], [true], [], false⟩
      ∧ QWinEventNotifier.runQueuedInvocations ⟨7, false⟩ true [true]
          = (⟨7, true⟩, [DispatcherCall.registerEventNotifier 7]))
  ∧ QWinEventNotifier.event ⟨7, false⟩ true QWinEventNotifier.QEventType.threadChange
      = ⟨⟨7, false⟩, [], [], [], false⟩ :=
  ⟨(C1_threadChange_transfer ⟨7, true⟩).1 rfl,
   (C1_threadChange_transfer ⟨7, false⟩).2 rfl⟩

/-- C3: dispatching a fired handle whose registry entry is found and still
enabled delivers exactly one `WinEventAct` event, whose handling emits
exactly one `activated` notification carrying the fired handle and returns
`true`; if no entry is found, or the entry is disabled, nothing is
delivered. -/
theorem C3_dispatch_exactly_once (registry : List QWinEventNotifierPrivate)
    (disp : Bool) (fired : HANDLE) (d : QWinEventNotifierPrivate)
    (hfind : registry.find? (fun x => x.handleToEvent == fired) = some d) :
    (d.enabled = true →
      dispatchFiredHandle registry disp fired = [⟨d, [], [], [fired], true⟩])
  ∧ (d.enabled = false → dispatchFiredHandle registry disp fired = [])
  ∧ (∀ registry2 : List QWinEventNotifierPrivate,
      registry2.find? (fun x => x.handleToEvent == fired) = none →
      dispatchFiredHandle registry2 disp fired = []) := by
  have hpay : d.handleToEvent = fired := by
    have := List.find?_some hfind
    simpa using this
  refine ⟨?_, ?_, ?_⟩
  · intro hen
    simp [dispatchFiredHandle, hfind, hen, QWinEventNotifier.event, hpay]
  · intro hen
    simp [dispatchFiredHandle, hfind, hen]
  · intro registry2 hnone
    simp [dispatchFiredHandle, hnone]

/-- Witness for C3: a one-entry registry with an enabled notifier on
handle 3, a disabled registry, and an empty registry. -/
theorem C3_dispatch_exactly_once_w :
    dispatchFiredHandle [(⟨3, true⟩ : QWinEventNotifierPrivate)] true 3
      = [⟨⟨3, true⟩, [], [], [3], true⟩]
  ∧ dispatchFiredHandle ([] : List QWinEventNotifierPrivate) true 3 = [] :=
  ⟨(C3_dispatch_exactly_once [⟨3, true⟩] true 3 ⟨3, true⟩ rfl).1 rfl,
   (C3_dispatch_exactly_once [⟨3, true⟩] true 3 ⟨3, true⟩ rfl).2.2 [] rfl⟩

/-- C5 counterexample: the claim says `setEnabled(true)` on a thread with
no dispatcher "fails with a fatal precondition violation".  The source's
`setEnabled` contains no assertion: with no dispatcher it completes
normally — it sets the enabled flag, makes no dispatcher call and returns
to the caller.  Only the handle-taking constructor asserts. -/
theorem C5_counterexample_setEnabled_no_abort :
    QWinEventNotifier.setEnabled ⟨5, false⟩ false true = (⟨5, true⟩, []) := by
  decide

/-- C5 (amended): only constructing a notifier from a handle on a thread
with no dispatcher fails the fatal `Q_ASSERT_X` precondition;
`setEnabled(true)` with no dispatcher does not abort — it sets the enabled
flag and silently skips the registration. -/
theorem C5_amended_fatal_only_in_ctor :
    (∀ h : HANDLE, QWinEventNotifier.constructWithHandle h false
        = QWinEventNotifier.CtorResult.assertFailure)
  ∧ (∀ d : QWinEventNotifierPrivate, QWinEventNotifier.isEnabled d = false →
      QWinEventNotifier.setEnabled d false true = ({ d with enabled := true }, [])) := by
  constructor
  · intro h
    simp [QWinEventNotifier.constructWithHandle]
  · intro ⟨h, e⟩ he
    simp [QWinEventNotifier.isEnabled] at he
    subst he
    simp [QWinEventNotifier.setEnabled]

/-- Witness for the amended C5 at a concrete handle and notifier. -/
theorem C5_amended_fatal_only_in_ctor_w :
    QWinEventNotifier.constructWithHandle 5 false
      = QWinEventNotifier.CtorResult.assertFailure
  ∧ QWinEventNotifier.setEnabled ⟨5, false⟩ false true = (⟨5, true⟩, []) :=
  ⟨C5_amended_fatal_only_in_ctor.1 5,
   C5_amended_fatal_only_in_ctor.2 ⟨5, false⟩ rfl⟩

/-- C8: registering a new handle while the wait set (enabled handles plus
the reserved wake slot) still fits under the `MAXIMUM_WAIT_OBJECTS` ceiling
succeeds and appends the handle; registering one that would exceed the
ceiling surfaces `capacityError` at registration time; and a successful
registration never drops the new handle nor truncates the existing set. -/
theorem C8_capacity_error_surfaced (registry : List HANDLE) (h : HANDLE)
    (hnotin : h ∉ registry) :
    (registry.length < MAXIMUM_WAIT_OBJECTS - 1 →
      registryRegister registry h = RegisterResult.ok (registry ++ [h]))
  ∧ (MAXIMUM_WAIT_OBJECTS - 1 ≤ registry.length →
      registryRegister registry h = RegisterResult.capacityError)
  ∧ (∀ registry2 : List HANDLE,
      registryRegister registry h = RegisterResult.ok registry2 →
      h ∈ registry2 ∧ registry ⊆ registry2) := by
  refine ⟨?_, ?_, ?_⟩
  · intro hlt
    simp [registryRegister, hnotin]
    omega
  · intro hge
    simp [registryRegister, hnotin]
    omega
  · intro registry2 hok
    simp [registryRegister, hnotin] at hok
    by_cases hfit : registry.length + 1 ≤ MAXIMUM_WAIT_OBJECTS - 1
    · rw [if_pos hfit] at hok
      cases hok
      constructor
      · simp
      · intro x hx
        simp [hx]
    · rw [if_neg hfit] at hok
      cases hok

/-- Witness for C8: an empty registry accepts handle 1; a registry holding
63 handles (the reserved-slot ceiling) rejects a 64th with a capacity
error. -/
theorem C8_capacity_error_surfaced_w :
    registryRegister [] 1 = RegisterResult.ok [1]
  ∧ registryRegister (List.range 63) 100 = RegisterResult.capacityError :=
  ⟨(C8_capacity_error_surfaced [] 1 (by decide)).1 (by decide),
   (C8_capacity_error_surfaced (List.range 63) 100 (by decide)).2.1 (by decide)⟩

/-- Each public operation executed with a dispatcher present preserves the
correspondence between the registration state and the enabled flag. -/
theorem stepOp_preserves_registration (s : Sys)
    (hinv : s.registered = s.d.enabled) (op : Op) :
    (stepOp s op).registered = (stepOp s op).d.enabled := by
  obtain ⟨⟨h, e⟩, reg⟩ := s
  simp at hinv
  subst hinv
  cases op with
  | setHandleOp h2 =>
      cases reg <;>
        simp [stepOp, QWinEventNotifier.setHandle, QWinEventNotifier.setEnabled,
          applyCalls]
  | setEnabledOp b =>
      cases reg <;> cases b <;>
        simp [stepOp, QWinEventNotifier.setEnabled, applyCalls]
  | threadChangeOp =>
      cases reg <;>
        simp [stepOp, QWinEventNotifier.event, QWinEventNotifier.setEnabled,
          QWinEventNotifier.runQueuedInvocations, applyCalls]
  | destructOp =>
      cases reg <;>
        simp [stepOp, QWinEventNotifier.destruct, QWinEventNotifier.setEnabled,
          applyCalls]

/-- C4 counterexample: the claimed invariant requires a registered notifier
to hold a non-null handle and forbids registration calls carrying the null
handle.  But starting from the default-constructed notifier (null handle,
disabled, unregistered), `setEnabled(true)` with a dispatcher present
registers it while its handle is still `0`, and the registration call
itself submits the null handle. -/
theorem C4_counterexample_null_handle_registered :
    (runOps ⟨⟨0, false⟩, false⟩ [Op.setEnabledOp true]).registered = true
  ∧ (runOps ⟨⟨0, false⟩, false⟩ [Op.setEnabledOp true]).d.handleToEvent = 0
  ∧ (QWinEventNotifier.setEnabled ⟨0, false⟩ true true).2
      = [DispatcherCall.registerEventNotifier 0] := by decide

/-- C4 (amended): after any sequence of public operations executed with a
dispatcher present, the notifier is registered with its dispatcher if and
only if its enabled flag is true — the stored handle plays no role: a null
handle is registered like any other, and registration calls may submit the
null handle. -/
theorem C4_amended_registered_iff_enabled (s : Sys) (ops : List Op)
    (hinv : s.registered = QWinEventNotifier.isEnabled s.d) :
    (runOps s ops).registered = QWinEventNotifier.isEnabled (runOps s ops).d := by
  induction ops generalizing s with
  | nil => exact hinv
  | cons op rest ih => exact ih (stepOp s op) (stepOp_preserves_registration s hinv op)

/-- Witness for the amended C4: a concrete trace from the default
constructed notifier that enables, changes the handle, re-enables and
migrates across threads. -/
theorem C4_amended_registered_iff_enabled_w :
    ((⟨⟨0, false⟩, false⟩ : Sys).registered
        = QWinEventNotifier.isEnabled (⟨⟨0, false⟩, false⟩ : Sys).d)
  ∧ ((runOps ⟨⟨0, false⟩, false⟩
        [Op.setEnabledOp true, Op.setHandleOp 7, Op.setEnabledOp true,
          Op.threadChangeOp]).registered
      = QWinEventNotifier.isEnabled
          (runOps ⟨⟨0, false⟩, false⟩
            [Op.setEnabledOp true, Op.setHandleOp 7, Op.setEnabledOp true,
              Op.threadChangeOp]).d) :=
  ⟨by decide,
   C4_amended_registered_iff_enabled ⟨⟨0, false⟩, false⟩
     [Op.setEnabledOp true, Op.setHandleOp 7, Op.setEnabledOp true,
       Op.threadChangeOp] (by decide)⟩
